import Mathlib

/-!
Verification development for the agentic procurement assistant.

Shallow embedding of the core of the repository:
  * `src/src/ai_agent_agentic.py` — the ReAct reasoning loop (`process_query`),
    its tool dispatch (`_tool_execute_query`, `_serialize_results`,
    `_extract_text_from_response`, `_get_error_response`), and
  * `src/src/query_translator_langchain.py` — `validate_query`, and
  * `src/config.py` — the constants the two modules read.

Python dicts coming from `json.loads` are modelled as association lists with
first-match lookup (JSON object keys are unique after parsing, so first-match
equals Python dict lookup).  Python exceptions are modelled with `Except`;
the two external effectful collaborators (the language model and the MongoDB
collection) are modelled as explicit function-valued parameters (`Env`,
`Store`), and the calls issued to the MongoDB collection are recorded in an
explicit trace (`StoreCall`) so that statements about what reaches the store
can be made.  Wall-clock fields (`execution_time`) are not modelled.
-/

namespace Procure

/-! ### Constants from `config.py` -/

/-- `config.MAX_QUERY_RESULTS = 100` (maximum number of results to return). -/
def MAX_QUERY_RESULTS : Nat := 100

/-- `config.QUERY_TIMEOUT_SECONDS = 30` (maximum time for query execution). -/
def QUERY_TIMEOUT_SECONDS : Nat := 30

/-! ### JSON values (the output of `json.loads`) -/

/-- JSON values as produced by Python `json.loads`. -/
inductive J where
  | null
  | bool (b : Bool)
  | num (n : Int)
  | str (s : String)
  | arr (elems : List J)
  | obj (fields : List (String × J))
deriving Repr

/-- Python `x == "lit"` for a JSON value `x` and a string literal: true only
when `x` is that string (comparison with any other runtime type is `False`). -/
def jEqStr : J → String → Bool
  | J.str s, t => s == t
  | _, _ => false

/-- Python dict lookup `d[k]` / `d.get(k)` on a parsed JSON object
(keys are unique after `json.loads`, so first match is the match). -/
def jLookup (fields : List (String × J)) (k : String) : Option J :=
  match fields with
  | [] => none
  | (k2, v) :: rest => if k2 = k then some v else jLookup rest k

/-- Python `k in d` for a JSON object value (key membership); `false` on
non-objects (that situation is handled separately where it matters). -/
def jHasKey (k : String) : J → Bool
  | J.obj fields => fields.any (fun kv => kv.fst == k)
  | _ => false

/-- Python substring test `needle in s` (for nonempty `needle`). -/
def strContainsSub (s needle : String) : Bool :=
  (s.splitOn needle).length > 1

/-- Python `needle in stage` for an arbitrary JSON value `stage`, as used in
`any("$limit" in stage for stage in pipeline)`:
dict → key membership, str → substring, list → element equality,
anything else raises `TypeError`. -/
def pyContains (needle : String) : J → Except String Bool
  | J.obj fields => Except.ok (fields.any (fun kv => kv.fst == needle))
  | J.str s => Except.ok (strContainsSub s needle)
  | J.arr elems => Except.ok (elems.any (fun e => match e with
      | J.str s => s == needle
      | _ => false))
  | J.num _ => Except.error "argument of type \x27int\x27 is not iterable"
  | J.bool _ => Except.error "argument of type \x27bool\x27 is not iterable"
  | J.null => Except.error "argument of type \x27NoneType\x27 is not iterable"

/-- Python `any(needle in stage for stage in stages)` with generator
semantics: short-circuits on the first `True`; a `TypeError` raised while
testing an element propagates. -/
def pyAnyContains (needle : String) : List J → Except String Bool
  | [] => Except.ok false
  | s :: rest =>
    match pyContains needle s with
    | Except.error e => Except.error e
    | Except.ok true => Except.ok true
    | Except.ok false => pyAnyContains needle rest

/-! ### BSON values and `_serialize_results` -/

/-- Values appearing in documents returned by the MongoDB collection.
`oid s` is a `bson.ObjectId` whose `str()` is `s`; `date iso` is a
`datetime` whose `isoformat()` is `iso`. -/
inductive BVal where
  | oid (s : String)
  | date (iso : String)
  | str (s : String)
  | num (n : Int)
  | bool (b : Bool)
  | null
  | arr (elems : List BVal)
  | doc (fields : List (String × BVal))
deriving Repr

/-- A MongoDB document as a field list. -/
abbrev Record := List (String × BVal)

/-- Per-value step of `_serialize_results`: `ObjectId → str(value)`,
`datetime → value.isoformat()`, everything else unchanged (the source does
not recurse into nested documents or arrays). -/
def serializeValue : BVal → BVal
  | BVal.oid s => BVal.str s
  | BVal.date iso => BVal.str iso
  | v => v

/-- Inner loop of `_serialize_results`: rebuild one document, keeping every
key (including `_id`) and serializing each value. -/
def serializeDoc : Record → Record
  | [] => []
  | (k, v) :: rest => (k, serializeValue v) :: serializeDoc rest

/-- `AgenticProcurementAgent._serialize_results` (ai_agent_agentic.py,
lines 358-381). -/
def serialize_results : List Record → List Record
  | [] => []
  | d :: rest => serializeDoc d :: serialize_results rest

/-! ### `LangChainQueryTranslator.validate_query`
(query_translator_langchain.py, lines 337-395) -/

/-- The destructive stage names rejected by `validate_query`. -/
def destructive_stages : List String := ["$out", "$merge"]

/-- One step of the stage loop in `validate_query`: a stage passes iff it is
a dict none of whose keys is a destructive stage name. -/
def stageAllowed : J → Bool
  | J.obj fields => fields.all (fun kv => !(destructive_stages.contains kv.fst))
  | _ => false

/-- The `for i, stage in enumerate(pipeline)` loop of `validate_query` with
its early returns: succeeds iff every stage passes `stageAllowed`. -/
def checkStages : List J → Bool
  | [] => true
  | s :: rest => stageAllowed s && checkStages rest

/-- `validate_query(query_type, query) -> bool`.  The Python function also
mutates `query` in place (adding a default `limit` to `find` queries), so the
model returns the boolean together with the post-call query value. -/
def validate_query (query_type : String) (query : J) : Bool × J :=
  match query with
  | J.obj fields =>
    if query_type = "find" then
      match jLookup fields "filter" with
      | none => (false, query)
      | some (J.obj _) =>
        match jLookup fields "limit" with
        | some _ => (true, query)
        | none => (true, J.obj (fields ++ [("limit", J.num (Int.ofNat MAX_QUERY_RESULTS))]))
      | some _ => (false, query)
    else if query_type = "aggregate" then
      match jLookup fields "pipeline" with
      | none => (false, query)
      | some (J.arr stages) =>
        if stages.isEmpty then (false, query)
        else if checkStages stages then (true, query) else (false, query)
      | some _ => (false, query)
    else (false, query)
  | _ => (false, query)

/-! ### The Query Executor: `_tool_execute_query`
(ai_agent_agentic.py, lines 269-356)

The MongoDB collection is an oracle (`Store`); the calls actually issued to
it are recorded as a `StoreCall` trace.  A `find` is issued with no
server-side time budget (`collection.find(filter).limit(limit)` passes no
`max_time_ms`), an `aggregate` with `maxTimeMS = QUERY_TIMEOUT_SECONDS * 1000`. -/

/-- Behaviour of the MongoDB collection: each operation either returns
documents or raises a store-level error (timeout, connection loss, server
rejection). -/
structure Store where
  find : J → J → Except String (List Record)
  aggregate : List J → Nat → Except String (List Record)

/-- A call issued to the MongoDB collection, with the server-side time
budget it was given (`none` = no `maxTimeMS` passed). -/
inductive StoreCall where
  | find (filter : J) (lim : J) (maxTimeMS : Option Nat)
  | aggregate (pipeline : List J) (maxTimeMS : Option Nat)
deriving Repr

/-- The JSON dict `_tool_execute_query` returns (decoded). -/
structure ExecResult where
  success : Bool
  error : Option String
  results : List Record
  count : Nat
deriving Repr

/-- A failure return of `_tool_execute_query`: every error branch (including
the final `except Exception`) produces this shape. -/
def failRes (e : String) : ExecResult :=
  { success := false, error := some e, results := [], count := 0 }

/-- The success return of `_tool_execute_query`. -/
def mkOk (docs : List Record) : ExecResult :=
  { success := true, error := none,
    results := serialize_results docs, count := (serialize_results docs).length }

/-- `cursor = collection.find(filter).limit(limit); results = list(cursor)`:
the call carries no server-side time budget. -/
def runFind (store : Store) (filterD lim : J) : ExecResult × List StoreCall :=
  match store.find filterD lim with
  | Except.error e => (failRes e, [StoreCall.find filterD lim none])
  | Except.ok docs => (mkOk docs, [StoreCall.find filterD lim none])

/-- `cursor = collection.aggregate(pipeline, maxTimeMS=QUERY_TIMEOUT_SECONDS * 1000)`. -/
def runAgg (store : Store) (pipeline : List J) : ExecResult × List StoreCall :=
  match store.aggregate pipeline (QUERY_TIMEOUT_SECONDS * 1000) with
  | Except.error e => (failRes e, [StoreCall.aggregate pipeline (some (QUERY_TIMEOUT_SECONDS * 1000))])
  | Except.ok docs => (mkOk docs, [StoreCall.aggregate pipeline (some (QUERY_TIMEOUT_SECONDS * 1000))])

/-- pymongo accepts a mapping or `None` as a find filter and raises a
client-side `TypeError` otherwise (before any server round trip). -/
def filterAcceptable : J → Bool
  | J.obj _ => true
  | J.null => true
  | _ => false

/-- pymongo `cursor.limit` accepts an integer (a Python bool is an int) and
raises a client-side `TypeError` otherwise. -/
def limitAcceptable : J → Bool
  | J.num _ => true
  | J.bool _ => true
  | _ => false

/-- The `query_type == "find"` branch of `_tool_execute_query`. -/
def execFind (store : Store) (qf : List (String × J)) : ExecResult × List StoreCall :=
  let filterD := (jLookup qf "filter").getD (J.obj [])
  let lim := (jLookup qf "limit").getD (J.num (Int.ofNat MAX_QUERY_RESULTS))
  if filterAcceptable filterD then
    if limitAcceptable lim then runFind store filterD lim
    else (failRes "limit must be an integer", [])
  else (failRes "filter must be an instance of dict", [])

/-- The `query_type == "aggregate"` branch of `_tool_execute_query`:
`pipeline = query.get("pipeline", [])`; a default `$limit` stage is appended
when no stage contains `$limit` and no stage contains `$count`; a non-list
pipeline value eventually raises (pymongo rejects a non-list pipeline, and
only lists have `append`), caught by the enclosing `except`. -/
def execAggregate (store : Store) (qf : List (String × J)) : ExecResult × List StoreCall :=
  match (jLookup qf "pipeline").getD (J.arr []) with
  | J.arr stages =>
    match pyAnyContains "$limit" stages with
    | Except.error e => (failRes e, [])
    | Except.ok true => runAgg store stages
    | Except.ok false =>
      match pyAnyContains "$count" stages with
      | Except.error e => (failRes e, [])
      | Except.ok true => runAgg store stages
      | Except.ok false =>
        runAgg store (stages ++ [J.obj [("$limit", J.num (Int.ofNat MAX_QUERY_RESULTS))]])
  | J.obj pf =>
    if pf.any (fun kv => strContainsSub kv.fst "$limit")
        || pf.any (fun kv => strContainsSub kv.fst "$count") then
      (failRes "pipeline must be a list", [])
    else (failRes "\x27dict\x27 object has no attribute \x27append\x27", [])
  | J.str _ => (failRes "\x27str\x27 object has no attribute \x27append\x27", [])
  | J.num _ => (failRes "\x27int\x27 object is not iterable", [])
  | J.bool _ => (failRes "\x27bool\x27 object is not iterable", [])
  | J.null => (failRes "\x27NoneType\x27 object is not iterable", [])

/-- The `query_type == "aggregate" and isinstance(query, list)` wrapping step. -/
def wrapBarePipeline : J → J
  | J.arr elems => J.obj [("pipeline", J.arr elems)]
  | q => q

/-- Rendering of a JSON value inside a Python f-string error message. -/
def jDisplay : J → String
  | J.str s => s
  | J.num n => toString n
  | J.bool true => "True"
  | J.bool false => "False"
  | J.null => "None"
  | J.arr _ => "list value"
  | J.obj _ => "dict value"

/-- Python `type(x).__name__` for a JSON value. -/
def jTypeName : J → String
  | J.null => "NoneType"
  | J.bool _ => "bool"
  | J.num _ => "int"
  | J.str _ => "str"
  | J.arr _ => "list"
  | J.obj _ => "dict"

/-- The tail of `_tool_execute_query` after `query_type` and `query` have
been read: the bare-pipeline wrapping step, the `isinstance(query, dict)`
check, and the dispatch on `query_type`. -/
def execDispatch (store : Store) (qt q0 : J) : ExecResult × List StoreCall :=
  let q := if jEqStr qt "aggregate" then wrapBarePipeline q0 else q0
  match q with
  | J.obj qf =>
    if jEqStr qt "find" then execFind store qf
    else if jEqStr qt "aggregate" then execAggregate store qf
    else (failRes ("Unsupported query type: " ++ jDisplay qt), [])
  | other =>
    (failRes ("Invalid query structure. Expected dict with \x27filter\x27 or \x27pipeline\x27, got "
      ++ jTypeName other), [])

/-- `AgenticProcurementAgent._tool_execute_query(query_json)` from the point
after `json.loads` (`parsed` is the parse outcome; a parse error is raised
and caught by the enclosing `except`).  Second component: the calls issued to
the MongoDB collection.  The function never raises: every exception in the
body is caught by the final `except Exception` and folded into `failRes`.
(The trailing `json.dumps` of a successful result can itself raise on values
the serializer leaves nested and non-JSON-safe; that failure lands in the
same `except` branch and is not modelled separately, as no claim depends on
it.) -/
def tool_execute_query (store : Store) (parsed : Except String J) : ExecResult × List StoreCall :=
  match parsed with
  | Except.error e => (failRes e, [])
  | Except.ok (J.arr _) =>
    (failRes "Query translation returned a list instead of dict. Expected \x7bquery_type, query, explanation\x7d.", [])
  | Except.ok (J.str s) =>
    if strContainsSub s "query_type" then
      (failRes "string indices must be integers", [])
    else
      (failRes "Missing \x27query_type\x27 in query data. Got keys: not a dict", [])
  | Except.ok (J.num _) => (failRes "argument of type \x27int\x27 is not iterable", [])
  | Except.ok (J.bool _) => (failRes "argument of type \x27bool\x27 is not iterable", [])
  | Except.ok J.null => (failRes "argument of type \x27NoneType\x27 is not iterable", [])
  | Except.ok (J.obj fields) =>
    match jLookup fields "query_type" with
    | none =>
      (failRes ("Missing \x27query_type\x27 in query data. Got keys: "
        ++ String.intercalate ", " (fields.map Prod.fst)), [])
    | some qt =>
      match jLookup fields "query" with
      | none => (failRes "\x27query\x27", [])
      | some q0 => execDispatch store qt q0

/-! ### The Reasoning Loop: `process_query`
(ai_agent_agentic.py, lines 415-668)

The language model and the four tool bodies are oracles (`Env`); the loop
itself (iteration counting, token accounting, tool dispatch by name,
observation appending, the cap check and the exception handler) is embedded
verbatim.  The `while` loop runs on fuel `max_iterations - iterations`,
which is exactly the guard `iterations < max_iterations`; exiting via
`break` is recorded in the `broke` flag (pure control-flow bookkeeping). -/

/-- `ai_msg.response_metadata` token-usage shapes (lines 513-529): either
absent, the OpenAI `token_usage` shape, or the Gemini `usage_metadata` shape. -/
inductive UsageMeta where
  | none
  | openai (prompt_tokens completion_tokens : Nat)
  | gemini (prompt_token_count candidates_token_count : Nat)
deriving Repr, DecidableEq

/-- Input tokens added to `total_input_tokens` for one model response. -/
def usageInput : UsageMeta → Nat
  | UsageMeta.none => 0
  | UsageMeta.openai p _ => p
  | UsageMeta.gemini p _ => p

/-- Output tokens added to `total_output_tokens` for one model response. -/
def usageOutput : UsageMeta → Nat
  | UsageMeta.none => 0
  | UsageMeta.openai _ c => c
  | UsageMeta.gemini _ c => c

/-- One item of a list-shaped model response content, as inspected by
`_extract_text_from_response`: a dict (with or without a `text` entry,
`rep` being its `str()`), a plain string, or any other value. -/
inductive Fragment where
  | fdict (text : Option String) (rep : String)
  | fstr (s : String)
  | fother (rep : String)
deriving Repr, DecidableEq

/-- Model response content: a plain string, a list of typed fragments, or
any other shape (`rep` being its `str()`). -/
inductive RespContent where
  | str (s : String)
  | list (items : List Fragment)
  | other (rep : String)
deriving Repr, DecidableEq

/-- The text contributed by one fragment: a dict item contributes its
`text` entry if present, a string item contributes itself, others nothing. -/
def fragText : Fragment → Option String
  | Fragment.fdict (some t) _ => some t
  | Fragment.fdict Option.none _ => Option.none
  | Fragment.fstr s => some s
  | Fragment.fother _ => Option.none

/-- Python `str()` of one fragment, for the `str(response)` fallback. -/
def fragRep : Fragment → String
  | Fragment.fdict _ rep => rep
  | Fragment.fstr s => "\x27" ++ s ++ "\x27"
  | Fragment.fother rep => rep

/-- Python `str()` of a list-shaped response, for the fallback branch. -/
def pyStrOfFragments (items : List Fragment) : String :=
  "[" ++ String.intercalate ", " (items.map fragRep) ++ "]"

/-- `AgenticProcurementAgent._extract_text_from_response`
(ai_agent_agentic.py, lines 641-660). -/
def extract_text_from_response : RespContent → String
  | RespContent.str s => s
  | RespContent.list items =>
    let text_parts := items.filterMap fragText
    if text_parts.isEmpty then pyStrOfFragments items else String.join text_parts
  | RespContent.other rep => rep

/-- A tool call requested by the model: `{name, args, id}`. -/
structure ToolCall where
  name : String
  args : List (String × J)
  id : String
deriving Repr

/-- A model response: content, requested tool calls, token-usage metadata. -/
structure AIMsg where
  content : RespContent
  tool_calls : List ToolCall
  meta : UsageMeta
deriving Repr

/-- A message of the conversation the loop maintains:
`SystemMessage`, `HumanMessage`, `AIMessage`, `ToolMessage`. -/
inductive Msg where
  | system (content : String)
  | human (content : String)
  | ai (msg : AIMsg)
  | toolMsg (content : String) (tool_call_id : String)
deriving Repr

/-- The effectful collaborators of the loop: the tool-bound language model
(`Except.error` = the invocation raised) and the bodies of the four tools.
The three database/translator tools catch all their own exceptions and
return strings, and the web tool likewise, so they are total here. -/
structure Env where
  model : List Msg → Except String AIMsg
  schema_tool : String
  translate_tool : J → String
  execute_tool : J → String
  search_tool : J → J → String
  enable_web_search : Bool

/-- `args.get(key, dflt)` on a tool call's argument dict. -/
def jGetArg (args : List (String × J)) (k : String) (dflt : J) : J :=
  match jLookup args k with
  | some v => v
  | Option.none => dflt

/-- The tool dispatch of the ACT phase (ai_agent_agentic.py, lines 552-573):
`tool_output` defaults to the literal `"Unknown Tool"`, and the if/elif
chain on `tool_name` overrides it for the four known tools.  The chain does
not consult `enable_web_search`. -/
def dispatch (env : Env) (tc : ToolCall) : String :=
  if tc.name = "get_collection_schema" then env.schema_tool
  else if tc.name = "translate_query" then
    env.translate_tool (jGetArg tc.args "user_question" (J.str ""))
  else if tc.name = "execute_mongodb_query" then
    env.execute_tool (jGetArg tc.args "query_json" (J.str ""))
  else if tc.name = "search_web" then
    env.search_tool (jGetArg tc.args "query" (J.str "")) (jGetArg tc.args "max_results" (J.num 5))
  else "Unknown Tool"

/-- The `for tool_call in ai_msg.tool_calls` loop (the ACT/OBSERVE phase):
for each requested call, in order, the tool name is recorded into
`tool_calls_made` and exactly one `ToolMessage` observation is appended to
the conversation, before control returns to the model. -/
def actPhase (env : Env) : List ToolCall → List Msg → List String → List Msg × List String
  | [], msgs, tools => (msgs, tools)
  | tc :: rest, msgs, tools =>
    actPhase env rest (msgs ++ [Msg.toolMsg (dispatch env tc) tc.id]) (tools ++ [tc.name])

/-- The mutable locals of the `while` loop in `process_query`. -/
structure LoopState where
  messages : List Msg
  iterations : Nat
  input_tokens : Nat
  output_tokens : Nat
  tools_used : List String
  final_response : RespContent
  broke : Bool
deriving Repr

/-- What the `except Exception` handler of `process_query` can see when an
exception escapes a loop iteration: the locals at that point plus `str(e)`. -/
structure LoopFail where
  iterations : Nat
  input_tokens : Nat
  output_tokens : Nat
  tools_used : List String
  err : String
deriving Repr

/-- `max_iterations = 8` — the safety valve of the loop. -/
def max_iterations : Nat := 8

/-- The `while iterations < max_iterations` loop of `process_query`
(lines 504-583), with fuel `max_iterations - iterations` standing for the
guard.  THINK: invoke the model (a raised exception aborts to the handler),
append its message, accumulate tokens.  DECIDE: no requested tool calls →
set `final_response` and break.  ACT/OBSERVE: dispatch every requested call
and loop. -/
def runLoop (env : Env) : Nat → LoopState → Except LoopFail LoopState
  | 0, st => Except.ok st
  | Nat.succ fuel, st =>
    let iters := st.iterations + 1
    match env.model st.messages with
    | Except.error e =>
      Except.error ⟨iters, st.input_tokens, st.output_tokens, st.tools_used, e⟩
    | Except.ok aiMsg =>
      let msgs := st.messages ++ [Msg.ai aiMsg]
      let tin := st.input_tokens + usageInput aiMsg.meta
      let tout := st.output_tokens + usageOutput aiMsg.meta
      if aiMsg.tool_calls.isEmpty then
        Except.ok ⟨msgs, iters, tin, tout, st.tools_used, aiMsg.content, true⟩
      else
        let acted := actPhase env aiMsg.tool_calls msgs st.tools_used
        runLoop env fuel ⟨acted.fst, iters, tin, tout, acted.snd, st.final_response, st.broke⟩

/-- The `web_search_section` block of the system prompt (lines 440-446). -/
def web_search_section : String :=
  "\n4. **search_web**: Search the internet for external information\n   - Use this when the user asks about current events, definitions, or general knowledge\n   - NOT for procurement data queries (use translate_query + execute_mongodb_query for that)\n   - Example: \"What is the inflation rate in 2023?\" -> use search_web\n   - Example: \"What does UNSPSC mean?\" -> use search_web\n"

/-- The system prompt of the loop (lines 449-488); braces and apostrophes of
the source text appear as their character escapes, and the arrow glyphs as
`->`. -/
def system_prompt_text (enable_web_search : Bool) : String :=
  "You are an expert Procurement Data Agent for California state procurement data.\nYour goal is to answer the user\x27s question by querying the MongoDB database.\n\nCRITICAL MONGODB AGGREGATION RULE:\nWhen you see aggregation results like [\x7b\"_id\": \"Transportation\", \"total\": 99000000000\x7d]:\n- The \"_id\" field contains the grouped-by value (department name, supplier name, item name, etc.)\n- Other fields contain the calculated values (totals, counts, averages)\n- YOU MUST include BOTH the \"_id\" value AND the calculated values in your answer!\n\nAVAILABLE TOOLS:\n1. **get_collection_schema**: Inspect database structure\n   - Use this if you don\x27t know the exact field names\n2. **translate_query**: Convert natural language to MongoDB query\n   - Use this for questions about procurement data in the database\n3. **execute_mongodb_query**: Run MongoDB queries\n   - Use this to execute queries and get results\n"
  ++ (if enable_web_search then web_search_section else "")
  ++ "\nSTRATEGY:\n1. If the question is about procurement data, use get_collection_schema -> translate_query -> execute_mongodb_query\n2. If the question is about external information (current events, definitions, etc.), use search_web\n3. OBSERVE the raw results carefully:\n   - Look at ALL fields including \"_id\"\n   - For aggregation results, \"_id\" is usually the answer to \"which/who\" questions\n   - For \"Which department?\" -> look at \"_id\" field\n   - For \"Which supplier?\" -> look at \"_id\" field\n   - For \"What item?\" -> look at \"_id\" field\n5. If results are empty or wrong, RETRY with a corrected query.\n6. Formulate a complete answer with BOTH names and numbers.\n\nEXAMPLES OF GOOD ANSWERS:\n- \"The department that spent the most is Transportation with $99 billion\"\n- \"The top 5 suppliers are: 1. Acme Corp ($5M), 2. Tech Inc ($4M)...\"\n- \"Q2 had the highest spending with $45 billion\"\n\nBAD ANSWERS (missing the \"_id\" value):\n- \"The total is $99 billion\" (Where\x27s the department name?)\n- \"The spending was $45 billion\" (Which quarter?)\n\nIMPORTANT: You are autonomous - use tools as needed, retry if wrong, and ALWAYS include the \"_id\" field values in your answer!"

/-- The response synthesized after the loop when `iterations >= max_iterations`
(line 588). -/
def apology_response (tools_used : List String) : String :=
  "I apologize, but I reached the maximum number of reasoning steps (8) while trying to answer your question. The tools I used were: "
  ++ String.intercalate ", " tools_used
  ++ ". Please try rephrasing your question or making it more specific."

/-- `AgenticProcurementAgent._get_error_response` (lines 662-668). -/
def error_response (user_question err : String) : String :=
  "I encountered an error while processing your question: \"" ++ user_question
  ++ "\"\n\nError: " ++ err
  ++ "\n\nPlease try rephrasing your question or make it more specific."

/-- The initial conversation: `[SystemMessage, HumanMessage]` (lines 491-494). -/
def initMessages (env : Env) (user_question : String) : List Msg :=
  [Msg.system (system_prompt_text env.enable_web_search), Msg.human user_question]

/-- The loop locals at entry:
`final_response = ""`, `iterations = 0`, empty token counters and tally. -/
def initState (env : Env) (user_question : String) : LoopState :=
  ⟨initMessages env user_question, 0, 0, 0, [], RespContent.str "", false⟩

/-- The `token_count` dict of the returned result. -/
structure TokenCount where
  input_token_count : Nat
  output_token_count : Nat
  total_token_count : Nat
deriving Repr, DecidableEq

/-- The dict `process_query` returns (`AgentRunResult`); `execution_time`
is wall clock and not modelled; `translated_query`, `results` and
`results_count` are the constants `None`, `[]`, `0` in both return sites. -/
structure AgentRunResult where
  success : Bool
  user_question : String
  response : String
  iterations : Nat
  tools_used : List String
  web_search_enabled : Bool
  error : Option String
  token_count : TokenCount
deriving Repr

/-- `AgenticProcurementAgent.process_query` (lines 415-639).  After the loop,
`final_response` is overwritten with the apology whenever
`iterations >= max_iterations` — even when the loop exited via `break` with a
model answer on the final permitted iteration.  The `except` branch builds
the failure result from the handler view `LoopFail`. -/
def process_query (env : Env) (user_question : String) : AgentRunResult :=
  match runLoop env max_iterations (initState env user_question) with
  | Except.ok st =>
    let finalResp :=
      if st.iterations ≥ max_iterations then RespContent.str (apology_response st.tools_used)
      else st.final_response
    { success := true
      user_question := user_question
      response := extract_text_from_response finalResp
      iterations := st.iterations
      tools_used := st.tools_used
      web_search_enabled := env.enable_web_search
      error := none
      token_count := ⟨st.input_tokens, st.output_tokens, st.input_tokens + st.output_tokens⟩ }
  | Except.error f =>
    { success := false
      user_question := user_question
      response := error_response user_question f.err
      iterations := f.iterations
      tools_used := f.tools_used
      web_search_enabled := env.enable_web_search
      error := some f.err
      token_count := ⟨f.input_tokens, f.output_tokens, f.input_tokens + f.output_tokens⟩ }

/-! ### Vocabulary for the property statements -/

/-- The usage-metadata records of the AI messages of a conversation. -/
def aiMetas (msgs : List Msg) : List UsageMeta :=
  msgs.filterMap (fun m => match m with
    | Msg.ai a => some a.meta
    | _ => Option.none)

/-- Number of AI messages in a conversation (used by scripted model fixtures). -/
def countAi (msgs : List Msg) : Nat :=
  (msgs.filter (fun m => match m with
    | Msg.ai _ => true
    | _ => false)).length

/-- The server-side time budget a store call was issued with. -/
def callBudget : StoreCall → Option Nat
  | StoreCall.find _ _ b => b
  | StoreCall.aggregate _ b => b

/-- Whether a store call is an aggregate execution. -/
def isAggregateCall : StoreCall → Bool
  | StoreCall.aggregate _ _ => true
  | StoreCall.find _ _ _ => false

/-- A pipeline stage of a destructive kind: a dict whose keys include
`$out` or `$merge` (the store-mutating / export stages). -/
def stageDestructive (s : J) : Bool :=
  jHasKey "$out" s || jHasKey "$merge" s

/-- Whether a store call executes an aggregate pipeline that contains a
destructive stage. -/
def callHasDestructiveStage : StoreCall → Bool
  | StoreCall.aggregate p _ => p.any stageDestructive
  | StoreCall.find _ _ _ => false

/-- The four tool names the dispatcher knows. -/
def known_tool_names : List String :=
  ["get_collection_schema", "translate_query", "execute_mongodb_query", "search_web"]

/-! ### Concrete fixtures for witnesses and counterexamples -/

/-- A store fixture that returns no documents and never fails. -/
def emptyStore : Store := ⟨fun _ _ => Except.ok [], fun _ _ => Except.ok []⟩

/-- Fixture model reply: requests one `translate_query` call, no usage data. -/
def aiToolTurn : AIMsg :=
  ⟨RespContent.str "", [⟨"translate_query", [("user_question", J.str "total orders")], "call_1"⟩],
    UsageMeta.none⟩

/-- Fixture model reply: requests one schema inspection, no usage data. -/
def aiSchemaTurn : AIMsg :=
  ⟨RespContent.str "", [⟨"get_collection_schema", [], "call_s"⟩], UsageMeta.none⟩

/-- Fixture model reply: the plain final answer `"Hello"`. -/
def aiHello : AIMsg := ⟨RespContent.str "Hello", [], UsageMeta.none⟩

/-- Fixture model reply: the plain final answer `"FINAL"`. -/
def aiFinal : AIMsg := ⟨RespContent.str "FINAL", [], UsageMeta.none⟩

/-- Fixture model reply: answers `"Hi"` reporting OpenAI-shaped token usage. -/
def aiUsage : AIMsg := ⟨RespContent.str "Hi", [], UsageMeta.openai 10 5⟩

/-- Fixture tool bodies shared by the loop fixtures below. -/
def baseEnv (model : List Msg → Except String AIMsg) : Env :=
  ⟨model, "SCHEMA", fun _ => "TRANSLATED", fun _ => "EXECUTED", fun _ _ => "SEARCHED", true⟩

/-- Fixture: the model answers immediately without tools. -/
def envImmediate : Env := baseEnv (fun _ => Except.ok aiHello)

/-- Fixture: the model requests another tool call on every turn. -/
def envAlwaysTools : Env := baseEnv (fun _ => Except.ok aiToolTurn)

/-- Fixture: the model requests a schema call on its first seven turns and
answers `"FINAL"` without tools on the eighth. -/
def envLateAnswer : Env :=
  baseEnv (fun msgs => if countAi msgs < 7 then Except.ok aiSchemaTurn else Except.ok aiFinal)

/-- Fixture: the model invocation raises. -/
def envRaises : Env := baseEnv (fun _ => Except.error "boom")

/-- Fixture: the model answers at once, reporting token usage. -/
def envUsage : Env := baseEnv (fun _ => Except.ok aiUsage)

/-- The loop state after `envImmediate` answers on the first iteration. -/
def stImmediate : LoopState :=
  ⟨initMessages envImmediate "q" ++ [Msg.ai aiHello], 1, 0, 0, [], RespContent.str "Hello", true⟩

/-- The loop state after `envUsage` answers on the first iteration. -/
def stUsage : LoopState :=
  ⟨initMessages envUsage "q" ++ [Msg.ai aiUsage], 1, 10, 5, [], RespContent.str "Hi", true⟩

/-- Parsed executor input whose pipeline contains the export stage `$out`. -/
def outPipelineInput : Except String J :=
  Except.ok (J.obj [("query_type", J.str "aggregate"),
    ("query", J.obj [("pipeline", J.arr [J.obj [("$out", J.str "procurement_copy")]])])])

/-- Parsed executor input: a plain find with an explicit limit. -/
def plainFindInput : Except String J :=
  Except.ok (J.obj [("query_type", J.str "find"),
    ("query", J.obj [("filter", J.obj []), ("limit", J.num 5)])])

/-- Parsed executor input: a `$match`-only aggregate. -/
def matchAggInput : Except String J :=
  Except.ok (J.obj [("query_type", J.str "aggregate"),
    ("query", J.obj [("pipeline", J.arr [J.obj [("$match", J.obj [])]])])])

/-- The store call that executing `matchAggInput` issues: the `$match`
stage followed by the appended default `$limit` stage, under the budget. -/
def c6call : StoreCall :=
  StoreCall.aggregate
    [J.obj [("$match", J.obj [])], J.obj [("$limit", J.num (Int.ofNat MAX_QUERY_RESULTS))]]
    (some (QUERY_TIMEOUT_SECONDS * 1000))

/-- Witness find query fields: a filter but no limit. -/
def c7fields : List (String × J) := [("filter", J.obj [])]

/-- Witness aggregate query fields: a `$match`-only pipeline. -/
def c7qf : List (String × J) := [("pipeline", J.arr [J.obj [("$match", J.obj [])]])]

/-- The stages of `c7qf`. -/
def c7stages : List J := [J.obj [("$match", J.obj [])]]

/-- Witness destructive stage: a `$merge` export stage. -/
def c2stage : J := J.obj [("$merge", J.str "procurement_copy")]

/-! ## Helper lemmas -/

theorem serializeValue_idem (v : BVal) : serializeValue (serializeValue v) = serializeValue v := by
  cases v <;> rfl

theorem serializeDoc_map (d : Record) :
    serializeDoc d = d.map (fun kv => (kv.fst, serializeValue kv.snd)) := by
  induction d with
  | nil => rfl
  | cons kv rest ih => cases kv; simp [serializeDoc, ih]

theorem serialize_results_map (rs : List Record) :
    serialize_results rs = rs.map serializeDoc := by
  induction rs with
  | nil => rfl
  | cons d rest ih => simp [serialize_results, ih]

theorem serializeDoc_idem (d : Record) : serializeDoc (serializeDoc d) = serializeDoc d := by
  induction d with
  | nil => rfl
  | cons kv rest ih => cases kv; simp [serializeDoc, serializeValue_idem, ih]

theorem actPhase_eq (env : Env) (calls : List ToolCall) (msgs : List Msg) (tools : List String) :
    actPhase env calls msgs tools =
      (msgs ++ calls.map (fun tc => Msg.toolMsg (dispatch env tc) tc.id),
        tools ++ calls.map ToolCall.name) := by
  induction calls generalizing msgs tools with
  | nil => simp [actPhase]
  | cons tc rest ih => simp [actPhase, ih]

theorem runLoop_ok_iterations (env : Env) :
    ∀ (fuel : Nat) (st st' : LoopState),
      runLoop env fuel st = Except.ok st' → st'.iterations ≤ st.iterations + fuel := by
  intro fuel
  induction fuel with
  | zero =>
    intro st st' h
    simp only [runLoop, Except.ok.injEq] at h
    subst h
    omega
  | succ fuel ih =>
    intro st st' h
    simp only [runLoop] at h
    split at h
    · exact absurd h (by simp)
    · split at h
      · injection h with h'
        subst h'
        simp
      · have := ih _ st' h
        simp at this
        omega

theorem runLoop_err_iterations (env : Env) :
    ∀ (fuel : Nat) (st : LoopState) (f : LoopFail),
      runLoop env fuel st = Except.error f → f.iterations ≤ st.iterations + fuel := by
  intro fuel
  induction fuel with
  | zero =>
    intro st f h
    exact absurd h (by simp [runLoop])
  | succ fuel ih =>
    intro st f h
    simp only [runLoop] at h
    split at h
    · injection h with h'
      subst h'
      simp
    · split at h
      · exact absurd h (by simp)
      · have := ih _ f h
        simp at this
        omega

theorem runLoop_always_tools (env : Env)
    (halways : ∀ msgs, ∃ ai, env.model msgs = Except.ok ai ∧ ai.tool_calls ≠ []) :
    ∀ (fuel : Nat) (st : LoopState), st.broke = false →
      ∃ st', runLoop env fuel st = Except.ok st' ∧
        st'.iterations = st.iterations + fuel ∧ st'.broke = false ∧
        st'.final_response = st.final_response := by
  intro fuel
  induction fuel with
  | zero =>
    intro st hb
    exact ⟨st, rfl, by omega, hb, rfl⟩
  | succ fuel ih =>
    intro st hb
    obtain ⟨ai, hm, hne⟩ := halways st.messages
    have hemp : ai.tool_calls.isEmpty = false := by
      cases h : ai.tool_calls with
      | nil => exact absurd h hne
      | cons a l => rfl
    obtain ⟨st', h1, h2, h3, h4⟩ :=
      ih ⟨(actPhase env ai.tool_calls (st.messages ++ [Msg.ai ai]) st.tools_used).fst,
        st.iterations + 1, st.input_tokens + usageInput ai.meta,
        st.output_tokens + usageOutput ai.meta,
        (actPhase env ai.tool_calls (st.messages ++ [Msg.ai ai]) st.tools_used).snd,
        st.final_response, st.broke⟩ hb
    refine ⟨st', ?_, ?_, h3, h4⟩
    · simpa only [runLoop, hm, hemp, Bool.false_eq_true, if_false] using h1
    · simp at h2
      omega

theorem runLoop_broke (env : Env) :
    ∀ (fuel : Nat) (st st' : LoopState), st.broke = false →
      runLoop env fuel st = Except.ok st' → st'.broke = true →
      ∃ (l : List Msg) (ai : AIMsg), st'.messages = l ++ [Msg.ai ai] ∧
        ai.tool_calls = [] ∧ st'.final_response = ai.content := by
  intro fuel
  induction fuel with
  | zero =>
    intro st st' hb h hb'
    simp only [runLoop, Except.ok.injEq] at h
    subst h
    rw [hb] at hb'
    cases hb'
  | succ fuel ih =>
    intro st st' hb h hb'
    simp only [runLoop] at h
    split at h
    · exact absurd h (by simp)
    · rename_i ai hm
      split at h
      · rename_i hemp
        injection h with h'
        subst h'
        exact ⟨st.messages, ai, rfl, List.isEmpty_iff.mp hemp, rfl⟩
      · refine ih _ st' ?_ h hb'
        exact hb

theorem aiMetas_append (l1 l2 : List Msg) :
    aiMetas (l1 ++ l2) = aiMetas l1 ++ aiMetas l2 := by
  simp [aiMetas, List.filterMap_append]

theorem aiMetas_toolMsgs (env : Env) (calls : List ToolCall) :
    aiMetas (calls.map (fun tc => Msg.toolMsg (dispatch env tc) tc.id)) = [] := by
  induction calls with
  | nil => rfl
  | cons tc rest ih => simp [aiMetas, List.filterMap_cons, ih]

theorem runLoop_tokens (env : Env) :
    ∀ (fuel : Nat) (st st' : LoopState),
      runLoop env fuel st = Except.ok st' →
      st.input_tokens = ((aiMetas st.messages).map usageInput).sum →
      st.output_tokens = ((aiMetas st.messages).map usageOutput).sum →
      st'.input_tokens = ((aiMetas st'.messages).map usageInput).sum ∧
      st'.output_tokens = ((aiMetas st'.messages).map usageOutput).sum := by
  intro fuel
  induction fuel with
  | zero =>
    intro st st' h hin hout
    simp only [runLoop, Except.ok.injEq] at h
    subst h
    exact ⟨hin, hout⟩
  | succ fuel ih =>
    intro st st' h hin hout
    simp only [runLoop] at h
    split at h
    · exact absurd h (by simp)
    · rename_i ai hm
      split at h
      · injection h with h'
        subst h'
        constructor
        · simp [aiMetas_append, aiMetas, List.filterMap_cons, hin]
        · simp [aiMetas_append, aiMetas, List.filterMap_cons, hout]
      · rw [actPhase_eq] at h
        refine ih _ st' h ?_ ?_
        · show st.input_tokens + usageInput ai.meta =
            ((aiMetas (st.messages ++ [Msg.ai ai]
              ++ List.map (fun tc => Msg.toolMsg (dispatch env tc) tc.id) ai.tool_calls)).map
                usageInput).sum
          rw [aiMetas_append, aiMetas_toolMsgs, aiMetas_append]
          simp [aiMetas, List.filterMap_cons, hin]
        · show st.output_tokens + usageOutput ai.meta =
            ((aiMetas (st.messages ++ [Msg.ai ai]
              ++ List.map (fun tc => Msg.toolMsg (dispatch env tc) tc.id) ai.tool_calls)).map
                usageOutput).sum
          rw [aiMetas_append, aiMetas_toolMsgs, aiMetas_append]
          simp [aiMetas, List.filterMap_cons, hout]

/-! ## The claims -/

/-- Claim C9: the Query Executor's record normalization maps each record
field-for-field (ObjectId values to strings, datetime values to ISO-8601
strings, all other values unchanged, no field dropped — including the
grouping-key `_id` field of aggregation output), and applying the
normalization to an already-normalized record set is a no-op. -/
theorem C9_theorem (rs : List Record) (d : Record) :
    serialize_results (serialize_results rs) = serialize_results rs ∧
    serialize_results rs = rs.map serializeDoc ∧
    serializeDoc d = d.map (fun kv => (kv.fst, serializeValue kv.snd)) ∧
    (serializeDoc d).map Prod.fst = d.map Prod.fst := by
  refine ⟨?_, serialize_results_map rs, serializeDoc_map d, ?_⟩
  · rw [serialize_results_map, serialize_results_map, List.map_map]
    exact List.map_congr_left (fun d _ => serializeDoc_idem d)
  · rw [serializeDoc_map, List.map_map]
    rfl

/-- Claim C8: every `ToolInvocation` issued by the model in a turn receives
exactly one corresponding `ToolMessage` observation appended to the
conversation, in the order the model issued the calls, with its name
recorded in `tools_used`; an invocation with an unknown tool name receives
the literal `"Unknown Tool"` observation instead of raising.  (In `runLoop`,
`actPhase` finishes the whole batch before the recursive call, i.e. before
the next model invocation.) -/
theorem C8_theorem (env : Env) :
    (∀ (calls : List ToolCall) (msgs : List Msg) (tools : List String),
      actPhase env calls msgs tools =
        (msgs ++ calls.map (fun tc => Msg.toolMsg (dispatch env tc) tc.id),
          tools ++ calls.map ToolCall.name)) ∧
    (∀ tc : ToolCall, tc.name ∉ known_tool_names → dispatch env tc = "Unknown Tool") := by
  refine ⟨actPhase_eq env, ?_⟩
  intro tc h
  simp only [known_tool_names, List.mem_cons, List.not_mem_nil, or_false, not_or] at h
  obtain ⟨h1, h2, h3, h4⟩ := h
  simp [dispatch, h1, h2, h3, h4]

/-- Witness for C8: a model-issued invocation with the unknown name
`"mystery_tool"` is answered with the literal `"Unknown Tool"` observation. -/
theorem C8_witness : dispatch envImmediate ⟨"mystery_tool", [], "x"⟩ = "Unknown Tool" :=
  (C8_theorem envImmediate).2 ⟨"mystery_tool", [], "x"⟩ (by decide)

/-- Claim C4: `process_query` always returns an `AgentRunResult` (the
embedding is a total function); when an exception escapes a loop iteration
(the model invocation raised), the handler produces a result with
`success = false`, the exception message in `error`, and the user-facing
apology response built by `_get_error_response`. -/
theorem C4_theorem (env : Env) (q : String) (f : LoopFail)
    (h : runLoop env max_iterations (initState env q) = Except.error f) :
    (process_query env q).success = false ∧
    (process_query env q).error = some f.err ∧
    (process_query env q).response = error_response q f.err := by
  simp [process_query, h]

/-- Witness for C4: a model that raises `"boom"` on its first invocation. -/
theorem C4_witness :
    (process_query envRaises "q").success = false ∧
    (process_query envRaises "q").error = some "boom" ∧
    (process_query envRaises "q").response = error_response "q" "boom" :=
  C4_theorem envRaises "q" ⟨1, 0, 0, [], "boom"⟩ rfl

/-- Claim C3: for every run `iterations` never exceeds the hard cap 8; and
for a model that requests another tool call on every turn, the run ends with
`iterations = 8`, `success = true`, and the synthesized cap response listing
the tools used so far. -/
theorem C3_theorem (env : Env) (q : String) :
    (process_query env q).iterations ≤ max_iterations ∧
    ((∀ msgs, ∃ ai, env.model msgs = Except.ok ai ∧ ai.tool_calls ≠ []) →
      (process_query env q).iterations = max_iterations ∧
      (process_query env q).success = true ∧
      (process_query env q).response = apology_response ((process_query env q).tools_used)) := by
  constructor
  · cases h : runLoop env max_iterations (initState env q) with
    | ok st =>
      have hle := runLoop_ok_iterations env max_iterations (initState env q) st h
      simp only [initState] at hle
      simp [process_query, h]
      omega
    | error f =>
      have hle := runLoop_err_iterations env max_iterations (initState env q) f h
      simp only [initState] at hle
      simp [process_query, h]
      omega
  · intro halways
    obtain ⟨st', h1, h2, h3, h4⟩ :=
      runLoop_always_tools env halways max_iterations (initState env q) rfl
    have h2' : st'.iterations = max_iterations := by
      simpa [initState] using h2
    have hge : st'.iterations ≥ max_iterations := by omega
    refine ⟨?_, ?_, ?_⟩
    · simp [process_query, h1, h2']
    · simp [process_query, h1]
    · simp [process_query, h1, if_pos hge, extract_text_from_response]

/-- Witness for C3: the fixture model `envAlwaysTools` requests a
`translate_query` call on every turn; the run stops at exactly 8 iterations
with the cap apology and `success = true`. -/
theorem C3_witness :
    (process_query envAlwaysTools "q").iterations ≤ max_iterations ∧
    (process_query envAlwaysTools "q").iterations = max_iterations ∧
    (process_query envAlwaysTools "q").success = true ∧
    (process_query envAlwaysTools "q").response
      = apology_response ((process_query envAlwaysTools "q").tools_used) := by
  have h := C3_theorem envAlwaysTools "q"
  have halways : ∀ msgs, ∃ ai,
      envAlwaysTools.model msgs = Except.ok ai ∧ ai.tool_calls ≠ [] :=
    fun _ => ⟨aiToolTurn, rfl, by simp [aiToolTurn]⟩
  exact ⟨h.1, (h.2 halways).1, (h.2 halways).2.1, (h.2 halways).2.2⟩

/-- Claim C1 (amended): when the model responds without requesting any tool
invocation at an iteration strictly below the cap, the run terminates via
the break (DONE) and the returned response is that model message's content
after plain-text extraction, with `success = true`.  (At the cap iteration
itself the claim fails — see the counterexample.) -/
theorem C1_theorem (env : Env) (q : String) (st : LoopState)
    (hok : runLoop env max_iterations (initState env q) = Except.ok st)
    (hbroke : st.broke = true) (hlt : st.iterations < max_iterations) :
    ∃ (l : List Msg) (ai : AIMsg), st.messages = l ++ [Msg.ai ai] ∧ ai.tool_calls = [] ∧
      (process_query env q).success = true ∧
      (process_query env q).response = extract_text_from_response ai.content := by
  obtain ⟨l, ai, h1, h2, h3⟩ :=
    runLoop_broke env max_iterations (initState env q) st rfl hok hbroke
  refine ⟨l, ai, h1, h2, ?_, ?_⟩
  · simp [process_query, hok]
  · have hnot : ¬ st.iterations ≥ max_iterations := by omega
    simp [process_query, hok, if_neg hnot, h3]

/-- Witness for C1: the fixture model answers `"Hello"` without tools on the
first iteration; the returned response is exactly that content. -/
theorem C1_witness :
    ∃ (l : List Msg) (ai : AIMsg),
      stImmediate.messages = l ++ [Msg.ai ai] ∧ ai.tool_calls = [] ∧
      (process_query envImmediate "q").success = true ∧
      (process_query envImmediate "q").response = extract_text_from_response ai.content :=
  C1_theorem envImmediate "q" stImmediate rfl rfl (by decide)

set_option maxRecDepth 8192 in
/-- Counterexample for C1 as stated: with `envLateAnswer` the model responds
*without any tool invocation* on the 8th iteration (the cap), the loop
breaks with `final_response = "FINAL"` — but the post-loop check
`iterations >= max_iterations` then overwrites the answer with the cap
apology, so the returned response is *not* the model message's content. -/
theorem C1_counterexample :
    ∃ st : LoopState,
      runLoop envLateAnswer max_iterations (initState envLateAnswer "q") = Except.ok st ∧
      st.broke = true ∧ st.iterations = max_iterations ∧
      st.final_response = RespContent.str "FINAL" ∧
      (process_query envLateAnswer "q").response
        ≠ extract_text_from_response st.final_response ∧
      (process_query envLateAnswer "q").response
        = apology_response (List.replicate 7 "get_collection_schema") :=
  ⟨_, rfl, rfl, rfl, rfl, by decide, by decide⟩

/-- Claim C10: in every `AgentRunResult` returned by `process_query`, on the
success and the failure path alike, `total_token_count` equals
`input_token_count + output_token_count`, where the input and output counts
are the sums accumulated over the model invocations of the run (one
usage-metadata record per AI message of the final conversation). -/
theorem C10_theorem (env : Env) (q : String) :
    (process_query env q).token_count.total_token_count =
      (process_query env q).token_count.input_token_count +
        (process_query env q).token_count.output_token_count ∧
    (∀ st, runLoop env max_iterations (initState env q) = Except.ok st →
      (process_query env q).token_count.input_token_count
        = ((aiMetas st.messages).map usageInput).sum ∧
      (process_query env q).token_count.output_token_count
        = ((aiMetas st.messages).map usageOutput).sum) := by
  constructor
  · cases h : runLoop env max_iterations (initState env q) <;> simp [process_query, h]
  · intro st h
    have hsum := runLoop_tokens env max_iterations (initState env q) st h rfl rfl
    simp [process_query, h, hsum.1, hsum.2]

/-- Witness for C10: with the fixture model reporting OpenAI-shaped usage
(10 prompt, 5 completion tokens), the run's counts are those sums. -/
theorem C10_witness :
    (process_query envUsage "q").token_count.input_token_count
      = ((aiMetas stUsage.messages).map usageInput).sum ∧
    (process_query envUsage "q").token_count.output_token_count
      = ((aiMetas stUsage.messages).map usageOutput).sum :=
  (C10_theorem envUsage "q").2 stUsage rfl

/-! ## Executor shape lemmas -/

theorem runFind_shape (store : Store) (f l : J) :
    (∃ e, (runFind store f l).fst = failRes e) ∨
    (∃ docs, (runFind store f l).fst = mkOk docs) := by
  unfold runFind
  rcases h : store.find f l with e | docs
  · exact Or.inl ⟨e, rfl⟩
  · exact Or.inr ⟨docs, rfl⟩

theorem runAgg_shape (store : Store) (p : List J) :
    (∃ e, (runAgg store p).fst = failRes e) ∨
    (∃ docs, (runAgg store p).fst = mkOk docs) := by
  unfold runAgg
  rcases h : store.aggregate p (QUERY_TIMEOUT_SECONDS * 1000) with e | docs
  · exact Or.inl ⟨e, rfl⟩
  · exact Or.inr ⟨docs, rfl⟩

theorem runFind_trace (store : Store) (f l : J) :
    (runFind store f l).snd = [StoreCall.find f l Option.none] := by
  unfold runFind
  rcases h : store.find f l with e | docs <;> rfl

theorem runAgg_trace (store : Store) (p : List J) :
    (runAgg store p).snd = [StoreCall.aggregate p (some (QUERY_TIMEOUT_SECONDS * 1000))] := by
  unfold runAgg
  rcases h : store.aggregate p (QUERY_TIMEOUT_SECONDS * 1000) with e | docs <;> rfl

theorem execFind_shape (store : Store) (qf : List (String × J)) :
    (∃ e, (execFind store qf).fst = failRes e) ∨
    (∃ docs, (execFind store qf).fst = mkOk docs) := by
  simp only [execFind]
  split
  · split
    · exact runFind_shape store _ _
    · exact Or.inl ⟨_, rfl⟩
  · exact Or.inl ⟨_, rfl⟩

theorem execFind_trace (store : Store) (qf : List (String × J)) :
    (execFind store qf).snd = [] ∨
    (∃ f l, (execFind store qf).snd = [StoreCall.find f l Option.none]) := by
  simp only [execFind]
  split
  · split
    · exact Or.inr ⟨_, _, runFind_trace store _ _⟩
    · exact Or.inl rfl
  · exact Or.inl rfl

theorem execAggregate_shape (store : Store) (qf : List (String × J)) :
    (∃ e, (execAggregate store qf).fst = failRes e) ∨
    (∃ docs, (execAggregate store qf).fst = mkOk docs) := by
  simp only [execAggregate]
  split
  · split
    · exact Or.inl ⟨_, rfl⟩
    · exact runAgg_shape store _
    · split
      · exact Or.inl ⟨_, rfl⟩
      · exact runAgg_shape store _
      · exact runAgg_shape store _
  · split
    · exact Or.inl ⟨_, rfl⟩
    · exact Or.inl ⟨_, rfl⟩
  · exact Or.inl ⟨_, rfl⟩
  · exact Or.inl ⟨_, rfl⟩
  · exact Or.inl ⟨_, rfl⟩
  · exact Or.inl ⟨_, rfl⟩

theorem execAggregate_trace (store : Store) (qf : List (String × J)) :
    (execAggregate store qf).snd = [] ∨
    (∃ p, (execAggregate store qf).snd
      = [StoreCall.aggregate p (some (QUERY_TIMEOUT_SECONDS * 1000))]) := by
  simp only [execAggregate]
  split
  · split
    · exact Or.inl rfl
    · exact Or.inr ⟨_, runAgg_trace store _⟩
    · split
      · exact Or.inl rfl
      · exact Or.inr ⟨_, runAgg_trace store _⟩
      · exact Or.inr ⟨_, runAgg_trace store _⟩
  · split
    · exact Or.inl rfl
    · exact Or.inl rfl
  · exact Or.inl rfl
  · exact Or.inl rfl
  · exact Or.inl rfl
  · exact Or.inl rfl

theorem execDispatch_shape (store : Store) (qt q0 : J) :
    (∃ e, (execDispatch store qt q0).fst = failRes e) ∨
    (∃ docs, (execDispatch store qt q0).fst = mkOk docs) := by
  simp only [execDispatch]
  split
  · split
    · exact execFind_shape store _
    · split
      · exact execAggregate_shape store _
      · exact Or.inl ⟨_, rfl⟩
  · exact Or.inl ⟨_, rfl⟩

theorem execDispatch_trace (store : Store) (qt q0 : J) :
    (execDispatch store qt q0).snd = [] ∨
    (∃ f l, (execDispatch store qt q0).snd = [StoreCall.find f l Option.none]) ∨
    (∃ p, (execDispatch store qt q0).snd
      = [StoreCall.aggregate p (some (QUERY_TIMEOUT_SECONDS * 1000))]) := by
  simp only [execDispatch]
  split
  · split
    · rcases execFind_trace store _ with h | ⟨f, l, h⟩
      · exact Or.inl h
      · exact Or.inr (Or.inl ⟨f, l, h⟩)
    · split
      · rcases execAggregate_trace store _ with h | ⟨p, h⟩
        · exact Or.inl h
        · exact Or.inr (Or.inr ⟨p, h⟩)
      · exact Or.inl rfl
  · exact Or.inl rfl

theorem exec_shape (store : Store) (pr : Except String J) :
    (∃ e, (tool_execute_query store pr).fst = failRes e) ∨
    (∃ docs, (tool_execute_query store pr).fst = mkOk docs) := by
  rcases pr with e | j
  · exact Or.inl ⟨e, rfl⟩
  · cases j with
    | null => exact Or.inl ⟨_, rfl⟩
    | bool b => exact Or.inl ⟨_, rfl⟩
    | num n => exact Or.inl ⟨_, rfl⟩
    | arr l => exact Or.inl ⟨_, rfl⟩
    | str s =>
      by_cases h : strContainsSub s "query_type"
      · exact Or.inl ⟨"string indices must be integers", by simp [tool_execute_query, h]⟩
      · exact Or.inl ⟨"Missing \x27query_type\x27 in query data. Got keys: not a dict",
          by simp [tool_execute_query, h]⟩
    | obj fields =>
      rcases h1 : jLookup fields "query_type" with _ | qt
      · exact Or.inl ⟨"Missing \x27query_type\x27 in query data. Got keys: "
          ++ String.intercalate ", " (fields.map Prod.fst), by simp [tool_execute_query, h1]⟩
      · rcases h2 : jLookup fields "query" with _ | q0
        · exact Or.inl ⟨"\x27query\x27", by simp [tool_execute_query, h1, h2]⟩
        · have key : tool_execute_query store (Except.ok (J.obj fields))
              = execDispatch store qt q0 := by
            simp [tool_execute_query, h1, h2]
          rw [key]
          exact execDispatch_shape store qt q0

theorem exec_trace_shape (store : Store) (pr : Except String J) :
    (tool_execute_query store pr).snd = [] ∨
    (∃ f l, (tool_execute_query store pr).snd = [StoreCall.find f l Option.none]) ∨
    (∃ p, (tool_execute_query store pr).snd
      = [StoreCall.aggregate p (some (QUERY_TIMEOUT_SECONDS * 1000))]) := by
  rcases pr with e | j
  · exact Or.inl rfl
  · cases j with
    | null => exact Or.inl rfl
    | bool b => exact Or.inl rfl
    | num n => exact Or.inl rfl
    | arr l => exact Or.inl rfl
    | str s =>
      by_cases h : strContainsSub s "query_type"
      · exact Or.inl (by simp [tool_execute_query, h])
      · exact Or.inl (by simp [tool_execute_query, h])
    | obj fields =>
      rcases h1 : jLookup fields "query_type" with _ | qt
      · exact Or.inl (by simp [tool_execute_query, h1])
      · rcases h2 : jLookup fields "query" with _ | q0
        · exact Or.inl (by simp [tool_execute_query, h1, h2])
        · have key : tool_execute_query store (Except.ok (J.obj fields))
              = execDispatch store qt q0 := by
            simp [tool_execute_query, h1, h2]
          rw [key]
          exact execDispatch_trace store qt q0

/-- Claim C5: every failure of the Query Executor — unsupported query kind,
malformed query shape, missing `query_type`, store-level failure — is
returned as a result with `success = false`, an error message, an empty
record list and `count = 0`; it is never raised to the Controller (the
embedding of `_tool_execute_query` is a total function: every exception of
the body is folded into the returned value by the final `except`). -/
theorem C5_theorem (store : Store) (pr : Except String J)
    (h : (tool_execute_query store pr).fst.success = false) :
    (∃ e, (tool_execute_query store pr).fst.error = some e) ∧
    (tool_execute_query store pr).fst.results = [] ∧
    (tool_execute_query store pr).fst.count = 0 := by
  rcases exec_shape store pr with ⟨e, he⟩ | ⟨docs, hd⟩
  · rw [he]
    exact ⟨⟨e, rfl⟩, rfl, rfl⟩
  · rw [hd] at h
    simp [mkOk] at h

/-- Witness for C5: the executor input `json.loads` produced a list rather
than a dict; the returned result is the structured failure shape. -/
theorem C5_witness :
    (∃ e, (tool_execute_query emptyStore (Except.ok (J.arr []))).fst.error = some e) ∧
    (tool_execute_query emptyStore (Except.ok (J.arr []))).fst.results = [] ∧
    (tool_execute_query emptyStore (Except.ok (J.arr []))).fst.count = 0 :=
  C5_theorem emptyStore (Except.ok (J.arr [])) rfl

/-- Claim C6 (amended): only the aggregate path of the Query Executor runs
under the server-side execution time budget (`maxTimeMS =
QUERY_TIMEOUT_SECONDS * 1000`); every `find` execution is issued with no
server-side time budget at all (`collection.find(...).limit(...)` passes no
`max_time_ms`). -/
theorem C6_theorem (store : Store) (pr : Except String J) (c : StoreCall)
    (hc : c ∈ (tool_execute_query store pr).snd) :
    (isAggregateCall c = true → callBudget c = some (QUERY_TIMEOUT_SECONDS * 1000)) ∧
    (isAggregateCall c = false → callBudget c = Option.none) := by
  rcases exec_trace_shape store pr with h | ⟨f, l, h⟩ | ⟨p, h⟩
  · rw [h] at hc
    cases hc
  · rw [h] at hc
    rw [List.mem_singleton.mp hc]
    exact ⟨(fun hb => nomatch hb), fun _ => rfl⟩
  · rw [h] at hc
    rw [List.mem_singleton.mp hc]
    exact ⟨fun _ => rfl, (fun hb => nomatch hb)⟩

/-- Witness for C6 (amended): the aggregate execution issued for
`matchAggInput` carries the budget. -/
theorem C6_witness :
    (isAggregateCall c6call = true → callBudget c6call = some (QUERY_TIMEOUT_SECONDS * 1000)) ∧
    (isAggregateCall c6call = false → callBudget c6call = Option.none) :=
  C6_theorem emptyStore matchAggInput c6call
    (show c6call ∈ [c6call] from List.mem_singleton.mpr rfl)

/-- Counterexample for C6 as stated: a `find` query is executed with *no*
server-side time budget — the single store call issued for `plainFindInput`
carries `maxTimeMS = none`, refuting "every query … is executed under the
server-side execution time budget". -/
theorem C6_counterexample :
    (tool_execute_query emptyStore plainFindInput).snd
      = [StoreCall.find (J.obj []) (J.num 5) Option.none] ∧
    ¬ (∀ c ∈ (tool_execute_query emptyStore plainFindInput).snd,
        callBudget c = some (QUERY_TIMEOUT_SECONDS * 1000)) :=
  ⟨rfl, by decide⟩

theorem jLookup_append (fields : List (String × J)) (k : String) (v : J)
    (h : jLookup fields k = Option.none) :
    jLookup (fields ++ [(k, v)]) k = some v := by
  induction fields with
  | nil => simp [jLookup]
  | cons kv rest ih =>
    obtain ⟨k2, v2⟩ := kv
    by_cases hk : k2 = k
    · exact absurd h (by simp [jLookup, hk])
    · have h2 : jLookup rest k = Option.none := by simpa [jLookup, hk] using h
      show jLookup ((k2, v2) :: (rest ++ [(k, v)])) k = some v
      simp only [jLookup, if_neg hk]
      exact ih h2

theorem pyAnyContains_false (needle : String) :
    ∀ stages : List J,
      (∀ s ∈ stages, jHasKey needle s = false ∧ ∃ kvs, s = J.obj kvs) →
      pyAnyContains needle stages = Except.ok false := by
  intro stages
  induction stages with
  | nil => intro _; rfl
  | cons s rest ih =>
    intro h
    obtain ⟨hk, kvs, hkv⟩ := h s (List.mem_cons_self s rest)
    subst hkv
    have hany : kvs.any (fun kv => kv.fst == needle) = false := by
      simpa [jHasKey] using hk
    simp only [pyAnyContains, pyContains, hany]
    exact ih (fun x hx => h x (List.mem_cons_of_mem _ hx))

theorem checkStages_destructive :
    ∀ (stages : List J) (s : J), s ∈ stages → stageDestructive s = true →
      checkStages stages = false := by
  intro stages
  induction stages with
  | nil =>
    intro s hs
    cases hs
  | cons a rest ih =>
    intro s hs hd
    rcases List.mem_cons.mp hs with heq | hmem
    · subst heq
      obtain ⟨kvs, rfl⟩ : ∃ kvs, s = J.obj kvs := by
        cases s with
        | obj kvs => exact ⟨kvs, rfl⟩
        | null => simp [stageDestructive, jHasKey] at hd
        | bool b => simp [stageDestructive, jHasKey] at hd
        | num n => simp [stageDestructive, jHasKey] at hd
        | str s2 => simp [stageDestructive, jHasKey] at hd
        | arr l => simp [stageDestructive, jHasKey] at hd
      have hallow : stageAllowed (J.obj kvs) = false := by
        rw [Bool.eq_false_iff]
        intro hall
        simp only [stageAllowed, List.all_eq_true, Bool.not_eq_eq_eq_not, Bool.not_true] at hall
        simp only [stageDestructive, jHasKey, Bool.or_eq_true, List.any_eq_true,
          beq_iff_eq] at hd
        rcases hd with ⟨kv, hmem2, hfst⟩ | ⟨kv, hmem2, hfst⟩ <;>
          · have hcontra := hall kv hmem2
            rw [hfst] at hcontra
            simp [destructive_stages] at hcontra
      simp [checkStages, hallow]
    · simp [checkStages, ih s hmem hd]

/-- Claim C2 (amended): an aggregate pipeline containing a destructive stage
(`$out` or `$merge`) never passes the Query Translator's `validate_query`,
so such a pipeline cannot arrive through the `translate_query` tool; the
`execute_mongodb_query` tool, however, performs no destructive-stage check,
and a destructive pipeline supplied to it directly is executed against the
store (see the counterexample). -/
theorem C2_theorem (fields : List (String × J)) (stages : List J) (s : J)
    (hpipe : jLookup fields "pipeline" = some (J.arr stages))
    (hs : s ∈ stages) (hd : stageDestructive s = true) :
    (validate_query "aggregate" (J.obj fields)).fst = false := by
  have hne : stages.isEmpty = false := by
    cases stages with
    | nil => cases hs
    | cons a l => rfl
  have hchk := checkStages_destructive stages s hs hd
  simp [validate_query, hpipe, hne, hchk]

/-- Witness for C2 (amended): a one-stage `$merge` pipeline is rejected by
`validate_query`. -/
theorem C2_witness :
    (validate_query "aggregate" (J.obj [("pipeline", J.arr [c2stage])])).fst = false :=
  C2_theorem [("pipeline", J.arr [c2stage])] [c2stage] c2stage rfl
    (List.mem_singleton.mpr rfl) rfl

/-- Counterexample for C2 as stated: a pipeline containing the export stage
`$out`, supplied directly through the `execute_mongodb_query` tool, is
executed against the document store (the issued aggregate call contains the
destructive stage and the executor reports success). -/
theorem C2_counterexample :
    (tool_execute_query emptyStore outPipelineInput).snd.any callHasDestructiveStage = true ∧
    (tool_execute_query emptyStore outPipelineInput).fst.success = true :=
  ⟨rfl, rfl⟩

/-- Claim C7: every structured query reaching execution has an explicit
result-size bound — a `find` query with no limit field is assigned
`limit = MAX_QUERY_RESULTS` by `validate_query`, and an aggregate pipeline
none of whose stages contains a `$limit` key and none of whose stages
contains a `$count` key is executed with the default `$limit` stage
appended. -/
theorem C7_theorem (store : Store) (fields qf : List (String × J)) (stages : List J)
    (hfilter : ∃ fkvs, jLookup fields "filter" = some (J.obj fkvs))
    (hnolim : jLookup fields "limit" = Option.none)
    (hpipe : jLookup qf "pipeline" = some (J.arr stages))
    (hstages : ∀ s ∈ stages,
      jHasKey "$limit" s = false ∧ jHasKey "$count" s = false ∧ ∃ kvs, s = J.obj kvs) :
    validate_query "find" (J.obj fields)
      = (true, J.obj (fields ++ [("limit", J.num (Int.ofNat MAX_QUERY_RESULTS))])) ∧
    jLookup (fields ++ [("limit", J.num (Int.ofNat MAX_QUERY_RESULTS))]) "limit"
      = some (J.num (Int.ofNat MAX_QUERY_RESULTS)) ∧
    (tool_execute_query store
        (Except.ok (J.obj [("query_type", J.str "aggregate"), ("query", J.obj qf)]))).snd
      = [StoreCall.aggregate
          (stages ++ [J.obj [("$limit", J.num (Int.ofNat MAX_QUERY_RESULTS))]])
          (some (QUERY_TIMEOUT_SECONDS * 1000))] := by
  obtain ⟨fkvs, hf⟩ := hfilter
  refine ⟨?_, jLookup_append fields "limit" _ hnolim, ?_⟩
  · simp [validate_query, hf, hnolim]
  · have hlim : pyAnyContains "$limit" stages = Except.ok false :=
      pyAnyContains_false "$limit" stages
        (fun s hs => ⟨(hstages s hs).1, (hstages s hs).2.2⟩)
    have hcnt : pyAnyContains "$count" stages = Except.ok false :=
      pyAnyContains_false "$count" stages
        (fun s hs => ⟨(hstages s hs).2.1, (hstages s hs).2.2⟩)
    have key : tool_execute_query store
        (Except.ok (J.obj [("query_type", J.str "aggregate"), ("query", J.obj qf)]))
        = execAggregate store qf := rfl
    rw [key]
    simp only [execAggregate, hpipe, Option.getD_some, hlim, hcnt]
    exact runAgg_trace store _

/-- Witness for C7: the limitless find `c7fields` gets `limit = 100`, and
the `$match`-only pipeline `c7qf` is executed with the default `$limit`
stage appended. -/
theorem C7_witness :
    validate_query "find" (J.obj c7fields)
      = (true, J.obj (c7fields ++ [("limit", J.num (Int.ofNat MAX_QUERY_RESULTS))])) ∧
    jLookup (c7fields ++ [("limit", J.num (Int.ofNat MAX_QUERY_RESULTS))]) "limit"
      = some (J.num (Int.ofNat MAX_QUERY_RESULTS)) ∧
    (tool_execute_query emptyStore
        (Except.ok (J.obj [("query_type", J.str "aggregate"), ("query", J.obj c7qf)]))).snd
      = [StoreCall.aggregate
          (c7stages ++ [J.obj [("$limit", J.num (Int.ofNat MAX_QUERY_RESULTS))]])
          (some (QUERY_TIMEOUT_SECONDS * 1000))] :=
  C7_theorem emptyStore c7fields c7qf c7stages ⟨[], rfl⟩ rfl rfl
    (by
      intro s hs
      simp only [c7stages, List.mem_singleton] at hs
      subst hs
      exact ⟨rfl, rfl, [("$match", J.obj [])], rfl⟩)

end Procure
